import Mathlib

/-!
Verification development for the freight transport network costing engine
(modal_networks.py, modules/cost.py, modules/builder/components/tons.py,
modules/builder/components/od.py).

Python floats are embedded as rationals (ℚ); Python code that can raise is
embedded as `Except PyError`.
-/

namespace Freight

/-- Exceptions raised by the Python runtime in the embedded code. -/
inductive PyError where
  | zeroDivision
  | assertionError
  | typeError
  deriving DecidableEq

/-- A traffic item as read by `BaseModalNetwork.get_total_ton_km`
(modal_networks.py): a link-gauge or an od pair, of which the two summing
loops only read `get_ton()` and `get_dist()`. -/
structure TrafficItem where
  ton : ℚ
  dist : ℚ
  deriving DecidableEq

/-- The running sum of `ton * dist` accumulated by `get_total_ton_km`. -/
def totalTk (items : List TrafficItem) : ℚ :=
  items.foldl (fun acc i => acc + i.ton * i.dist) 0

/-- `BaseModalNetwork.get_total_ton_km` (modal_networks.py): sums ton-km over
links and over od pairs, then checks
`assert abs(total_tk_link / total_tk_od - 1) < 0.001`.
Python float division raises `ZeroDivisionError` when `total_tk_od == 0`;
a failed assert raises `AssertionError`; otherwise the link-based total is
returned. -/
def get_total_ton_km (links ods : List TrafficItem) : Except PyError ℚ :=
  let total_tk_link := totalTk links
  let total_tk_od := totalTk ods
  if total_tk_od = 0 then .error .zeroDivision
  else if |total_tk_link / total_tk_od - 1| < 1 / 1000 then .ok total_tk_link
  else .error .assertionError

/-- The named parameters read by `RailwayNetworkCost.cost_mobility`
(modules/cost.py); each parameter object exposes a numeric `.value`. -/
structure RailParams where
  wagon_eac : ℚ
  locomotive_eac : ℚ
  fuel_cost_by_km : ℚ
  lubricants_fuel_ratio : ℚ
  maintenance_by_locomotive : ℚ
  maintenance_by_wagon : ℚ
  manpower_cost_by_loc_hour : ℚ
  deriving DecidableEq

/-- Modelled from the spec: the `RollingMaterial` class
(railway_rolling_material.py) is not under src/. The mobility cost formulas
only read four aggregate getters (`get_units_needed_by_time` of wagons and of
locomotives, `get_average_haul` and `get_operation_time` of locomotives),
which enter the embedding as state values. -/
structure FleetState where
  wagon_units : ℚ
  locom_units : ℚ
  locom_average_haul : ℚ
  locom_operation_time : ℚ
  deriving DecidableEq

/-- `RailwayNetworkCost._cost_eac_ton_km` (modules/cost.py): divides the
annual cost by `total_ton_km` only when it exceeds 0.1, and is 0.0
otherwise. -/
def cost_eac_ton_km (total_ton_km eac units : ℚ) : ℚ :=
  if 1 / 10 < total_ton_km then eac * units / total_ton_km else 0

/-- `RailwayNetworkCost._cost_eac_wagon`. -/
def cost_eac_wagon (p : RailParams) (f : FleetState) (total_ton_km : ℚ) : ℚ :=
  cost_eac_ton_km total_ton_km p.wagon_eac f.wagon_units

/-- `RailwayNetworkCost._cost_eac_locom`. -/
def cost_eac_locom (p : RailParams) (f : FleetState) (total_ton_km : ℚ) : ℚ :=
  cost_eac_ton_km total_ton_km p.locomotive_eac f.locom_units

/-- `RailwayNetworkCost._cost_fuel_and_lub`. -/
def cost_fuel_and_lub (p : RailParams) (f : FleetState) (total_ton_km : ℚ) : ℚ :=
  let fuel_ton_km :=
    if 1 / 10 < total_ton_km then
      p.fuel_cost_by_km * f.locom_average_haul * f.locom_units / total_ton_km
    else 0
  fuel_ton_km + fuel_ton_km * p.lubricants_fuel_ratio

/-- `RailwayNetworkCost._cost_mobility_maintenance`. -/
def cost_mobility_maintenance (p : RailParams) (f : FleetState) (total_ton_km : ℚ) : ℚ :=
  if 1 / 10 < total_ton_km then
    p.maintenance_by_locomotive * f.locom_units / total_ton_km +
      p.maintenance_by_wagon * f.wagon_units / total_ton_km
  else 0

/-- `RailwayNetworkCost._cost_manpower`. -/
def cost_manpower (p : RailParams) (f : FleetState) (total_ton_km : ℚ) : ℚ :=
  if 1 / 10 < total_ton_km then
    p.manpower_cost_by_loc_hour * f.locom_operation_time / total_ton_km
  else 0

/-- `RailwayNetworkCost.cost_mobility`: the `total_mobility` entry, the sum of
the five per-ton-km components. -/
def cost_mobility_total (p : RailParams) (f : FleetState) (total_ton_km : ℚ) : ℚ :=
  cost_eac_wagon p f total_ton_km + cost_eac_locom p f total_ton_km +
    cost_fuel_and_lub p f total_ton_km + cost_mobility_maintenance p f total_ton_km +
    cost_manpower p f total_ton_km

/-- One link as seen by `RailwayNetworkCost.cost_infrast`: its tonnage and its
three per-link cost components. The per-link formulas (`_cost_detour`,
`_cost_eac_track`, `_cost_infrast_maint`) use real-valued exponentiation
(`(1+rate)^life`, `density ** a`), so their outputs enter the embedding as
link values; the loop structure, the `link.get_ton() > 0` filter and the
per-ton-km guard below are from the source. -/
structure RailLinkCosts where
  ton : ℚ
  eac_detour : ℚ
  eac_track : ℚ
  maintenance : ℚ
  deriving DecidableEq

/-- The return value of `RailwayNetworkCost.cost_infrast`. -/
structure RailInfrastCosts where
  eac_detour : ℚ
  eac_track : ℚ
  maintenance : ℚ
  total_infrastructure : ℚ
  deriving DecidableEq

/-- `RailwayNetworkCost.cost_infrast` (modules/cost.py): accumulates per-link
costs over links with positive tonnage, then divides each accumulated cost by
`total_ton_km` when it exceeds 0.1 and sets it to 0.0 otherwise; the total is
the sum of the divided values. -/
def rail_cost_infrast (links : List RailLinkCosts) (total_ton_km : ℚ) : RailInfrastCosts :=
  let raw := links.foldl
    (fun (acc : ℚ × ℚ × ℚ) l =>
      if 0 < l.ton then (acc.1 + l.eac_detour, acc.2.1 + l.eac_track, acc.2.2 + l.maintenance)
      else acc)
    (0, 0, 0)
  let per := fun x : ℚ => if 1 / 10 < total_ton_km then x / total_ton_km else 0
  { eac_detour := per raw.1, eac_track := per raw.2.1, maintenance := per raw.2.2,
    total_infrastructure := per raw.1 + per raw.2.1 + per raw.2.2 }

/-- One link as seen by `RoadwayNetworkCost.cost_infrast`: its tonnage and the
output of `_cost_eac_track` (`b_eac * ton ** a_eac * dist`, real-valued
exponentiation, entering the embedding as a link value). -/
structure RoadLink where
  ton : ℚ
  eac_track : ℚ
  deriving DecidableEq

/-- `RoadwayNetworkCost.cost_infrast` (modules/cost.py): accumulates
`eac_track` over links with positive tonnage, then divides by `total_ton_km`
unconditionally (no near-zero guard; an exactly-zero total raises
`ZeroDivisionError`). Returns the `eac_track` and `total_infrastructure`
entries, which coincide. -/
def road_cost_infrast (links : List RoadLink) (total_ton_km : ℚ) :
    Except PyError (ℚ × ℚ) :=
  let raw := links.foldl (fun acc l => if 0 < l.ton then acc + l.eac_track else acc) 0
  if total_ton_km = 0 then .error .zeroDivision
  else
    let eac_track := raw / total_ton_km
    .ok (eac_track, eac_track)

/-- `RoadwayNetworkCost._cost_mobility` (modules/cost.py): multiplies the
recomputed total ton-km (the same value as `self.total_ton_km`) by the
`mobility_cost_tk` parameter and divides by `self.total_ton_km`
unconditionally. -/
def road_cost_mobility (mobility_cost_tk total_ton_km : ℚ) : Except PyError ℚ :=
  if total_ton_km = 0 then .error .zeroDivision
  else .ok (total_ton_km * mobility_cost_tk / total_ton_km)

/-- Requesting the rail mobility cost breakdown: `BaseNetworkCost.__init__`
computes `self.total_ton_km = rn.get_total_ton_km()` before any cost method
runs, so any exception there propagates to the caller. -/
def rail_cost_mobility_request (links ods : List TrafficItem) (p : RailParams)
    (f : FleetState) : Except PyError ℚ :=
  match get_total_ton_km links ods with
  | .error e => .error e
  | .ok tk => .ok (cost_mobility_total p f tk)

/-- Requesting the rail infrastructure cost breakdown (see
`rail_cost_mobility_request`). -/
def rail_cost_infrast_request (links ods : List TrafficItem)
    (rls : List RailLinkCosts) : Except PyError RailInfrastCosts :=
  match get_total_ton_km links ods with
  | .error e => .error e
  | .ok tk => .ok (rail_cost_infrast rls tk)

/-- Requesting the road mobility cost breakdown (see
`rail_cost_mobility_request`). -/
def road_cost_mobility_request (links ods : List TrafficItem) (c : ℚ) :
    Except PyError ℚ :=
  match get_total_ton_km links ods with
  | .error e => .error e
  | .ok tk => road_cost_mobility c tk

/-- Requesting the road infrastructure cost breakdown (see
`rail_cost_mobility_request`). -/
def road_cost_infrast_request (links ods : List TrafficItem)
    (rds : List RoadLink) : Except PyError (ℚ × ℚ) :=
  match get_total_ton_km links ods with
  | .error e => .error e
  | .ok tk => road_cost_infrast rds tk

/-- The two modes of the tonnage ledgers (modules/builder/components/tons.py). -/
inductive TonMode where
  | original
  | derived
  deriving DecidableEq

/-- `OdTons` (modules/builder/components/tons.py): the scalar ledger of an od
pair, holding original and derived tons. -/
structure OdTons where
  original : ℚ
  derived : ℚ
  deriving DecidableEq

/-- `OdTons.get_original`. -/
def OdTons.get_original (t : OdTons) : ℚ := t.original

/-- `OdTons.get_derived`. -/
def OdTons.get_derived (t : OdTons) : ℚ := t.derived

/-- `OdTons.get`: tons of one mode, or the total when no mode is given. -/
def OdTons.get (t : OdTons) (mode : Option TonMode) : ℚ :=
  match mode with
  | some .original => t.original
  | some .derived => t.derived
  | none => t.get_original + t.get_derived

/-- `OdTons._add_ton`: the source branches on the falsiness of the current
value (`if not self.get(mode)` assigns, else adds); both branches equal
addition numerically. -/
def OdTons.add_ton (cur ton : ℚ) : ℚ :=
  if cur = 0 then ton else cur + ton

/-- `OdTons.derive` (modules/builder/components/tons.py): derives original
tons governed by `coeff` and fully returns previously derived tons. The
`_remove_original_ton` / `_remove_derived_ton` helpers assert
`ton <= self.get(mode)` before mutating; a failed assert raises. Returns the
updated pair of ledgers together with `(ton_to_derive, ton_to_return)`. -/
def OdTons.derive (a b : OdTons) (coeff : ℚ) (allow_original : Bool) :
    Except PyError ((OdTons × OdTons) × (ℚ × ℚ)) :=
  let self_original_ton := a.get_original + b.get_derived
  let ton_should_be_derived := self_original_ton * coeff
  let ton_already_derived := b.get_derived
  let ton_to_derive0 := ton_should_be_derived - ton_already_derived
  let ton_to_return := a.get_derived
  let ton_to_derive := if allow_original then ton_to_derive0 else 0
  if ton_to_derive ≤ a.original then
    if ton_to_return ≤ a.derived then
      .ok ((⟨a.original - ton_to_derive, a.derived - ton_to_return⟩,
            ⟨OdTons.add_ton b.original ton_to_return,
             OdTons.add_ton b.derived ton_to_derive⟩),
           (ton_to_derive, ton_to_return))
    else .error .assertionError
  else .error .assertionError

/-- `BasePath._get_safe_id` (modules/builder/components/od.py): node ids are
split on the separator, parsed as integers and re-joined smaller-first; the
id is embedded as its ordered pair of node numbers. -/
def get_safe_id (id : ℕ × ℕ) : ℕ × ℕ :=
  if id.1 < id.2 then (id.1, id.2) else (id.2, id.1)

/-- `BasePath._get_path_nodes`: a path string is embedded as its list of node
numbers (`none` is Python `None`). The source returns the parsed node list
when a path is set and the od pair is not intrazone, and `None` otherwise. -/
def get_path_nodes (path : Option (List ℕ)) (nodes : ℕ × ℕ) : Option (List ℕ) :=
  match path with
  | none => none
  | some p => if nodes.1 ≠ nodes.2 then some p else none

/-- `BasePath._create_links_list`: consecutive node pairs of the path, each
canonicalized smaller-first. -/
def create_links_list (path_nodes : Option (List ℕ)) : List (ℕ × ℕ) :=
  match path_nodes with
  | none => []
  | some ns => (ns.zip ns.tail).map get_safe_id

/-- `OD` (modules/builder/components/od.py): an origin-destination pair. -/
structure OD where
  id : ℕ × ℕ
  path : Option (List ℕ)
  path_nodes : Option (List ℕ)
  gauge : Option ℕ
  dist : Option ℚ
  links : List (ℕ × ℕ)
  original_ton : ℚ
  derived_ton : ℚ
  rail_category : Option ℕ
  deriving DecidableEq

/-- `OD.__init__`: canonicalizes the id, derives the path properties, stores
the tons, and leaves `dist` at its argument (default `None`); `derived_ton`
starts at 0.0. -/
def OD.mk0 (id : ℕ × ℕ) (ton : ℚ) (path : Option (List ℕ) := none)
    (gauge : Option ℕ := none) (dist : Option ℚ := none)
    (rail_category : Option ℕ := none) : OD :=
  let safe_id := get_safe_id id
  let pn := get_path_nodes path safe_id
  { id := safe_id, path := path, path_nodes := pn, gauge := gauge, dist := dist,
    links := create_links_list pn, original_ton := ton, derived_ton := 0,
    rail_category := rail_category }

/-- `OD.get_id`. -/
def OD.get_id (od : OD) : ℕ × ℕ := od.id

/-- `OD.get_original_ton`. -/
def OD.get_original_ton (od : OD) : ℚ := od.original_ton

/-- `OD.get_derived_ton`. -/
def OD.get_derived_ton (od : OD) : ℚ := od.derived_ton

/-- `OD.get_ton`: original plus derived freight. -/
def OD.get_ton (od : OD) : ℚ := od.get_original_ton + od.get_derived_ton

/-- `OD.get_dist`: returns the stored `dist` attribute as is. -/
def OD.get_dist (od : OD) : Option ℚ := od.dist

/-- `OD.get_category`. -/
def OD.get_category (od : OD) : Option ℕ := od.rail_category

/-- `OD.is_intrazone`: the two nodes of the id are equal. -/
def OD.is_intrazone (od : OD) : Bool := od.id.1 == od.id.2

/-- `OD.derive_ton` (modules/builder/components/od.py): asserts that the two
od pairs share id and category, then applies the same derivation algebra as
`OdTons.derive`, mutating the four ton fields directly (no removal asserts).
Returns the updated pair and `(ton_to_derive, ton_to_return)`. -/
def OD.derive_ton (self other : OD) (coeff : ℚ) :
    Except PyError ((OD × OD) × (ℚ × ℚ)) :=
  if self.get_id = other.get_id ∧ self.get_category = other.get_category then
    let self_original_ton := self.get_original_ton + other.get_derived_ton
    let ton_should_be_derived := self_original_ton * coeff
    let ton_already_derived := other.get_derived_ton
    let ton_to_derive := ton_should_be_derived - ton_already_derived
    let ton_to_return := self.get_derived_ton
    .ok (({ self with original_ton := self.original_ton - ton_to_derive,
                      derived_ton := self.derived_ton - ton_to_return },
          { other with derived_ton := other.derived_ton + ton_to_derive,
                       original_ton := other.original_ton + ton_to_return }),
         (ton_to_derive, ton_to_return))
  else .error .assertionError

/-- The `od_pairs` table of a modal network: id to category to od pair,
embedded as nested association lists. -/
abbrev OdPairsMap := List ((ℕ × ℕ) × List (ℕ × OD))

/-- Lookup of `self.od_pairs[id_od]`. -/
def lookup_id (pairs : OdPairsMap) (id_od : ℕ × ℕ) : Option (List (ℕ × OD)) :=
  (pairs.find? (fun kv => kv.1 == id_od)).map (fun kv => kv.2)

/-- Lookup of `self.od_pairs[id_od][category_od]`. -/
def lookup_cat (cats : List (ℕ × OD)) (category_od : ℕ) : Option OD :=
  (cats.find? (fun kv => kv.1 == category_od)).map (fun kv => kv.2)

/-- Modelled from the spec: `BaseModalNetwork._create_od_pair` delegates to
the network builder (`create_od_pair` of the builder classes, which are not
under src/); per the spec an od pair is "created on first demand for an
(id, category) pair". The new pair starts with no tons and the requested
category. -/
def create_od_pair (pairs : OdPairsMap) (id_od : ℕ × ℕ) (category_od : ℕ) :
    OdPairsMap :=
  (id_od, [(category_od, OD.mk0 id_od 0 none none none (some category_od))]) :: pairs

/-- `BaseModalNetwork.get_od` (modal_networks.py): creates the od pair when
the id is absent; when the id is present but the category is absent, the
source calls `self._create_od_pair(id_od)` without the required
`category_od` argument, so Python raises `TypeError` before anything is
created; otherwise returns the stored pair. -/
def get_od (pairs : OdPairsMap) (id_od : ℕ × ℕ) (category_od : ℕ) :
    Except PyError OD :=
  let pairs1 :=
    if (lookup_id pairs id_od).isNone then create_od_pair pairs id_od category_od
    else pairs
  match lookup_id pairs1 id_od with
  | none => .error .typeError
  | some cats =>
    match lookup_cat cats category_od with
    | some od => .ok od
    | none => .error .typeError

/-- The value stored at a missing dictionary key: `entry_get none = 0.0`
mirrors `LinkTons._safe_dict_keys` defaulting a fresh key to 0.0 and
`LinkTons.get` summing nothing for an absent key. -/
def entry_get (v : Option ℚ) : ℚ := v.getD 0

/-- `LinkTons._remove_ton` (modules/builder/components/tons.py), acting on the
single (category, id_od) slot of one mode: when the removed amount is within
0.01 of the stored value the whole entry is deleted (`_remove_all_ton`);
otherwise the source asserts `ton < existing_tons` and subtracts. -/
def remove_ton_mode (ton : ℚ) (v : Option ℚ) : Except PyError (Option ℚ) :=
  let existing_tons := entry_get v
  if 1 / 100 < |ton - existing_tons| then
    if ton < existing_tons then .ok (some (existing_tons - ton))
    else .error .assertionError
  else .ok none

/-- One (category, id_od) slot of the nested `LinkTons` ledger: the original
and derived entries, each either stored or absent (deleted key). -/
structure LinkEntry where
  original : Option ℚ
  derived : Option ℚ
  deriving DecidableEq

/-- `LinkTons.get_original` restricted to the slot. -/
def LinkEntry.get_original (e : LinkEntry) : ℚ := entry_get e.original

/-- `LinkTons.get_derived` restricted to the slot. -/
def LinkEntry.get_derived (e : LinkEntry) : ℚ := entry_get e.derived

/-- `LinkTons.remove` (modules/builder/components/tons.py) on one
(category, id_od) slot: removes from derived first; falls through to original
when derived is zero; otherwise empties derived (`_remove_all_ton`) and
removes the remainder from original. -/
def LinkEntry.remove (ton : ℚ) (e : LinkEntry) : Except PyError LinkEntry :=
  if ton < e.get_derived then
    (remove_ton_mode ton e.derived).map (fun d => { e with derived := d })
  else if e.get_derived = 0 then
    (remove_ton_mode ton e.original).map (fun o => { e with original := o })
  else
    let removing_orig_ton := ton - e.get_derived
    (remove_ton_mode removing_orig_ton e.original).map
      (fun o => { original := o, derived := none })

/-- One mode of the nested `LinkTons` dictionary: category to id_od to tons. -/
abbrev CatMap := List (ℕ × List ((ℕ × ℕ) × ℚ))

/-- `LinkTons` (modules/builder/components/tons.py): the nested
mode-category-id_od ledger of a link. -/
structure LinkTons where
  original : CatMap
  derived : CatMap
  deriving DecidableEq

/-- `LinkTons._iter_values`: all stored ton values, in dictionary order. -/
def LinkTons.iter_values (t : LinkTons) : List ℚ :=
  ((t.original ++ t.derived).map (fun c => c.2.map (fun kv => kv.2))).flatten

/-- `LinkTons.clean_insignificant_ton_values`: the loop body `value = 0.0`
only rebinds the loop-local name; neither branch writes to the mapping. -/
def LinkTons.clean_insignificant_ton_values (t : LinkTons) (significance : ℚ) :
    LinkTons :=
  t.iter_values.foldl (fun acc value => if value < significance then acc else acc) t

/-- `RailwayNetwork.calc_optimized_mobility_cost` (modal_networks.py), body of
one link iteration: record the current total mobility cost, compute the idle
locomotives of the link, tentatively regroup, recompute the cost, and revert
when the new cost is not strictly lower (`if new_cost >= current_cost`).
`Link.regroup` / `Link.revert_regroup` and the `RollingMaterial` regroup
methods are not under src/; they are modelled from the spec as state
transformations `rg` / `rv` on the network state `S`, with the spec requiring
`rv` to invert `rg` exactly. `idle_locs` models
`floor(link.idle_capacity / locomotive_capacity)` read from the state. -/
def regroup_step {S L : Type} (cost : S → ℚ) (idle_locs : S → L → ℕ)
    (rg rv : L → ℕ → S → S) (s : S) (link : L) : S :=
  let current_cost := cost s
  let n := idle_locs s link
  let s2 := rg link n s
  let new_cost := cost s2
  if current_cost ≤ new_cost then rv link n s2 else s2

/-- `RailwayNetwork.calc_optimized_mobility_cost`: one deterministic sweep of
`regroup_step` over the link table. -/
def calc_optimized_mobility_cost {S L : Type} (cost : S → ℚ)
    (idle_locs : S → L → ℕ) (rg rv : L → ℕ → S → S) (links : List L) (s : S) : S :=
  links.foldl (regroup_step cost idle_locs rg rv) s

/-- `OdTons._add_ton` is numerically plain addition. -/
theorem OdTons.add_ton_eq (cur ton : ℚ) : OdTons.add_ton cur ton = cur + ton := by
  unfold OdTons.add_ton
  split
  · rename_i h
    rw [h, zero_add]
  · rfl

/-- `OdTons.derive` when both removal asserts hold: the explicit result. -/
theorem OdTons.derive_ok (a b : OdTons) (c : ℚ)
    (h1 : (a.original + b.derived) * c - b.derived ≤ a.original) :
    OdTons.derive a b c true =
      .ok ((⟨a.original - ((a.original + b.derived) * c - b.derived),
             a.derived - a.derived⟩,
            ⟨OdTons.add_ton b.original a.derived,
             OdTons.add_ton b.derived ((a.original + b.derived) * c - b.derived)⟩),
           ((a.original + b.derived) * c - b.derived, a.derived)) := by
  show (if (a.original + b.derived) * c - b.derived ≤ a.original then
          if a.derived ≤ a.derived then _ else Except.error PyError.assertionError
        else Except.error PyError.assertionError) = _
  rw [if_pos h1, if_pos (le_refl a.derived)]
  rfl

/-- `OD.derive_ton` when the identity assert holds: the explicit result. -/
theorem OD.derive_ton_ok (oa ob : OD) (c : ℚ) (hid : oa.get_id = ob.get_id)
    (hcat : oa.get_category = ob.get_category) :
    OD.derive_ton oa ob c =
      .ok (({ oa with
              original_ton := oa.original_ton -
                ((oa.original_ton + ob.derived_ton) * c - ob.derived_ton),
              derived_ton := oa.derived_ton - oa.derived_ton },
            { ob with
              derived_ton := ob.derived_ton +
                ((oa.original_ton + ob.derived_ton) * c - ob.derived_ton),
              original_ton := ob.original_ton + oa.derived_ton }),
           ((oa.original_ton + ob.derived_ton) * c - ob.derived_ton,
            oa.derived_ton)) := by
  show (if oa.get_id = ob.get_id ∧ oa.get_category = ob.get_category then _
        else Except.error PyError.assertionError) = _
  rw [if_pos ⟨hid, hcat⟩]
  rfl

/-- Claim C3: for ledgers with non-negative original and derived tons and a
coefficient in [0,1], `OdTons.derive` succeeds and the four-way sum
`A.original + A.derived + B.original + B.derived` is conserved; the same
conservation holds for `OD.derive_ton` between od pairs with equal canonical
id and category. -/
theorem derive_conserves_total (a b : OdTons) (c : ℚ)
    (ha : 0 ≤ a.original) (had : 0 ≤ a.derived)
    (hbo : 0 ≤ b.original) (hbd : 0 ≤ b.derived)
    (hc0 : 0 ≤ c) (hc1 : c ≤ 1) (oa ob : OD) (hid : oa.get_id = ob.get_id)
    (hcat : oa.get_category = ob.get_category) :
    (∃ r, OdTons.derive a b c true = .ok r ∧
      r.1.1.original + r.1.1.derived + r.1.2.original + r.1.2.derived =
        a.original + a.derived + b.original + b.derived) ∧
    (∃ q, OD.derive_ton oa ob c = .ok q ∧
      q.1.1.original_ton + q.1.1.derived_ton +
        q.1.2.original_ton + q.1.2.derived_ton =
        oa.original_ton + oa.derived_ton + ob.original_ton + ob.derived_ton) := by
  constructor
  · have h1 : (a.original + b.derived) * c - b.derived ≤ a.original := by
      have h0 : (a.original + b.derived) * c ≤ a.original + b.derived :=
        mul_le_of_le_one_right (by linarith) hc1
      linarith
    refine ⟨_, OdTons.derive_ok a b c h1, ?_⟩
    simp only [OdTons.add_ton_eq]
    ring
  · refine ⟨_, OD.derive_ton_ok oa ob c hid hcat, ?_⟩
    dsimp only
    ring

/-- Claim C3 witness: concrete ledgers and od pairs. -/
theorem derive_conserves_total_witness :
    (∃ r, OdTons.derive ⟨10, 2⟩ ⟨3, 4⟩ (1 / 2) true = .ok r ∧
      r.1.1.original + r.1.1.derived + r.1.2.original + r.1.2.derived =
        (10 : ℚ) + 2 + 3 + 4) ∧
    (∃ q, OD.derive_ton (OD.mk0 (1, 2) 100) (OD.mk0 (2, 1) 50) (1 / 2) = .ok q ∧
      q.1.1.original_ton + q.1.1.derived_ton +
        q.1.2.original_ton + q.1.2.derived_ton =
        (100 : ℚ) + 0 + 50 + 0) :=
  derive_conserves_total ⟨10, 2⟩ ⟨3, 4⟩ (1 / 2) (by norm_num) (by norm_num)
    (by norm_num) (by norm_num) (by norm_num) (by norm_num)
    (OD.mk0 (1, 2) 100) (OD.mk0 (2, 1) 50) rfl rfl

/-- Claim C8 (code_bug evaluation): on the degenerate network with no links
and no od pairs both ton-km totals are 0.0 and agree exactly (divergence 0%,
well within 0.1%), yet `get_total_ton_km` raises `ZeroDivisionError`
evaluating `total_tk_link / total_tk_od` inside the consistency assert,
instead of returning the link-based total. -/
theorem get_total_ton_km_zero_network_raises :
    get_total_ton_km [] [] = Except.error PyError.zeroDivision := by rfl

/-- Claim C1 (code_bug evaluation): requesting any of the four cost
breakdowns on a network whose total ton-km is 0 (the link-based or the
od-based total vanishes) raises instead of returning all-zero components:
`BaseNetworkCost.__init__` calls `get_total_ton_km`, which raises
`ZeroDivisionError` when the od total is 0 and fails its consistency assert
when only the link total is 0. -/
theorem zero_ton_km_cost_requests_raise (links ods : List TrafficItem)
    (h : totalTk links = 0 ∨ totalTk ods = 0) (p : RailParams) (f : FleetState)
    (rls : List RailLinkCosts) (c : ℚ) (rds : List RoadLink) :
    (∃ e, rail_cost_mobility_request links ods p f = .error e) ∧
    (∃ e, rail_cost_infrast_request links ods rls = .error e) ∧
    (∃ e, road_cost_mobility_request links ods c = .error e) ∧
    (∃ e, road_cost_infrast_request links ods rds = .error e) := by
  have hg : ∃ e, get_total_ton_km links ods = .error e := by
    by_cases hod : totalTk ods = 0
    · refine ⟨PyError.zeroDivision, ?_⟩
      simp [get_total_ton_km, hod]
    · rcases h with h | h
      · refine ⟨PyError.assertionError, ?_⟩
        have hcond : ¬(|totalTk links / totalTk ods - 1| < 1 / 1000) := by
          rw [h, zero_div, zero_sub, abs_neg, abs_one]
          norm_num
        simp only [get_total_ton_km]
        rw [if_neg hod, if_neg hcond]
      · exact absurd h hod
  obtain ⟨e, he⟩ := hg
  exact ⟨⟨e, by simp [rail_cost_mobility_request, he]⟩,
         ⟨e, by simp [rail_cost_infrast_request, he]⟩,
         ⟨e, by simp [road_cost_mobility_request, he]⟩,
         ⟨e, by simp [road_cost_infrast_request, he]⟩⟩

/-- Claim C1 witness: the empty network has total ton-km 0 and all four cost
breakdown requests raise. -/
theorem zero_ton_km_cost_requests_raise_witness :
    (∃ e, rail_cost_mobility_request [] [] ⟨1, 1, 1, 1, 1, 1, 1⟩ ⟨1, 1, 1, 1⟩ = .error e) ∧
    (∃ e, rail_cost_infrast_request [] [] [] = .error e) ∧
    (∃ e, road_cost_mobility_request [] [] 1 = .error e) ∧
    (∃ e, road_cost_infrast_request [] [] [] = .error e) :=
  zero_ton_km_cost_requests_raise [] [] (Or.inl rfl) ⟨1, 1, 1, 1, 1, 1, 1⟩
    ⟨1, 1, 1, 1⟩ [] 1 []

/-- Claim C2 counterexample: a road-mode state with aggregate total ton-km
0.05 (at most 0.1): `RoadwayNetworkCost.cost_infrast` divides by the
near-zero total and reports 2, not 0, and `_cost_mobility` reports 3, not 0,
so the road-mode computations do divide by the near-zero total. -/
theorem road_near_zero_divides_cex :
    ((1 : ℚ) / 20 ≤ 1 / 10) ∧
    road_cost_infrast [⟨1, 1 / 10⟩] (1 / 20) = .ok (2, 2) ∧
    road_cost_mobility 3 (1 / 20) = .ok 3 ∧
    (2 : ℚ) ≠ 0 ∧ (3 : ℚ) ≠ 0 :=
  ⟨by norm_num, by norm_num [road_cost_infrast, List.foldl],
    by norm_num [road_cost_mobility], by norm_num, by norm_num⟩

/-- Claim C2 amended: every rail-mode per-ton-km cost total (the five
mobility components, their sum, and the three infrastructure components with
their total) resolves to zero, without dividing, whenever the aggregate
total ton-km is non-positive or at most 0.1. The road-mode mobility and
infrastructure computations are not guarded: they divide by the total
unconditionally whenever it is nonzero and raise `ZeroDivisionError` at
exactly zero. -/
theorem rail_costs_zero_when_tk_near_zero (p : RailParams) (f : FleetState)
    (tk : ℚ) (h : tk ≤ 1 / 10) :
    cost_eac_wagon p f tk = 0 ∧ cost_eac_locom p f tk = 0 ∧
    cost_fuel_and_lub p f tk = 0 ∧ cost_mobility_maintenance p f tk = 0 ∧
    cost_manpower p f tk = 0 ∧ cost_mobility_total p f tk = 0 ∧
    (∀ rls, rail_cost_infrast rls tk = ⟨0, 0, 0, 0⟩) ∧
    (tk ≠ 0 → ∀ c, road_cost_mobility c tk = .ok (tk * c / tk)) ∧
    road_cost_mobility 1 0 = .error .zeroDivision := by
  have hn : ¬(1 / 10 < tk) := not_lt.2 h
  have h1 : cost_eac_wagon p f tk = 0 := by
    simp only [cost_eac_wagon, cost_eac_ton_km, if_neg hn]
  have h2 : cost_eac_locom p f tk = 0 := by
    simp only [cost_eac_locom, cost_eac_ton_km, if_neg hn]
  have h3 : cost_fuel_and_lub p f tk = 0 := by
    simp only [cost_fuel_and_lub, if_neg hn]
    ring
  have h4 : cost_mobility_maintenance p f tk = 0 := by
    simp only [cost_mobility_maintenance, if_neg hn]
  have h5 : cost_manpower p f tk = 0 := by
    simp only [cost_manpower, if_neg hn]
  have h6 : cost_mobility_total p f tk = 0 := by
    simp only [cost_mobility_total, h1, h2, h3, h4, h5]
    norm_num
  have h7 : ∀ rls, rail_cost_infrast rls tk = ⟨0, 0, 0, 0⟩ := by
    intro rls
    simp only [rail_cost_infrast, if_neg hn, RailInfrastCosts.mk.injEq]
    norm_num
  have h8 : tk ≠ 0 → ∀ c, road_cost_mobility c tk = .ok (tk * c / tk) := by
    intro h0 c
    simp [road_cost_mobility, h0]
  refine ⟨h1, h2, h3, h4, h5, h6, h7, h8, ?_⟩
  simp [road_cost_mobility]

/-- Claim C2 witness: at total ton-km 0 the rail totals are zero. -/
theorem rail_costs_zero_when_tk_near_zero_witness :
    cost_mobility_total ⟨1, 1, 1, 1, 1, 1, 1⟩ ⟨1, 1, 1, 1⟩ 0 = 0 ∧
    rail_cost_infrast [⟨5, 7, 9, 11⟩] 0 = ⟨0, 0, 0, 0⟩ := by
  have h := rail_costs_zero_when_tk_near_zero ⟨1, 1, 1, 1, 1, 1, 1⟩ ⟨1, 1, 1, 1⟩ 0
    (by norm_num)
  exact ⟨h.2.2.2.2.2.1, h.2.2.2.2.2.2.1 [⟨5, 7, 9, 11⟩]⟩

/-- Claim C4: `A = OdTons(original=1000)`, `B = OdTons(original=0)`;
`A.derive(B, 0.3)` returns `(300, 0)`; afterward `A.get("original") == 700`
and `B.get("derived") == 300`. -/
theorem odtons_derive_scenario :
    OdTons.derive ⟨1000, 0⟩ ⟨0, 0⟩ (3 / 10) true =
      .ok ((⟨700, 0⟩, ⟨0, 300⟩), (300, 0)) ∧
    OdTons.get ⟨700, 0⟩ (some TonMode.original) = 700 ∧
    OdTons.get ⟨0, 300⟩ (some TonMode.derived) = 300 := by
  refine ⟨?_, rfl, rfl⟩
  norm_num [OdTons.derive, OdTons.get_original, OdTons.get_derived, OdTons.add_ton]

/-- Claim C7 counterexample: immediately after construction,
`OD("5-5", ton=500)` has `dist = None`, so `getDist() == 0` is false (the
pair is intrazone, but its distance attribute is not 0). -/
theorem od_intrazone_dist_cex :
    ¬ ((OD.mk0 (5, 5) 500).get_dist = some 0 ∧
       (OD.mk0 (5, 5) 500).is_intrazone = true) := by
  intro h
  exact absurd h.1 (by simp [OD.mk0, OD.get_dist])

/-- Claim C7 amended: `OD("5-5", ton=500)` satisfies `isIntrazone()` right
after construction, but `getDist()` returns `None` (no distance assigned
yet), not 0; the zero distance of an intrazone pair is only reported through
the network accessor `get_path_distance` or after `calc_distance`. -/
theorem od_intrazone_dist_amended :
    (OD.mk0 (5, 5) 500).is_intrazone = true ∧
    (OD.mk0 (5, 5) 500).get_dist = none :=
  ⟨rfl, rfl⟩

/-- Claim C9 (code_bug evaluation): `get_od` returns the stored pair when id
and category are both present, and creates the pair when the id is absent,
but when the id is present and the requested category is absent the source
calls `self._create_od_pair(id_od)` without its required `category_od`
argument, so Python raises `TypeError` instead of creating the pair. -/
theorem get_od_missing_category_raises :
    get_od [((1, 3), [(1, OD.mk0 (1, 3) 100 none none none (some 1))])] (1, 3) 2 =
      .error .typeError ∧
    get_od [] (10, 25) 3 = .ok (OD.mk0 (10, 25) 0 none none none (some 3)) ∧
    get_od [((1, 3), [(1, OD.mk0 (1, 3) 100 none none none (some 1))])] (1, 3) 1 =
      .ok (OD.mk0 (1, 3) 100 none none none (some 1)) :=
  ⟨rfl, rfl, rfl⟩

/-- Unfolding lemma for `remove_ton_mode`. -/
theorem remove_ton_mode_eq (ton : ℚ) (v : Option ℚ) :
    remove_ton_mode ton v =
      (if 1 / 100 < |ton - entry_get v| then
        if ton < entry_get v then Except.ok (some (entry_get v - ton))
        else Except.error PyError.assertionError
      else Except.ok none) := rfl

/-- `entry_get` on the derived slot is the getter. -/
theorem LinkEntry.get_derived_def (e : LinkEntry) :
    entry_get e.derived = e.get_derived := rfl

/-- `entry_get` on the original slot is the getter. -/
theorem LinkEntry.get_original_def (e : LinkEntry) :
    entry_get e.original = e.get_original := rfl

/-- Unfolding lemma for `LinkEntry.remove`. -/
theorem LinkEntry.remove_eq (ton : ℚ) (e : LinkEntry) :
    LinkEntry.remove ton e =
      (if ton < e.get_derived then
        (remove_ton_mode ton e.derived).map (fun d => { e with derived := d })
      else if e.get_derived = 0 then
        (remove_ton_mode ton e.original).map (fun o => { e with original := o })
      else
        (remove_ton_mode (ton - e.get_derived) e.original).map
          (fun o => ⟨o, none⟩)) := rfl

/-- Claim C6: `LinkTons.remove` takes tons from derived first. With
`D = e.get_derived` and `O = e.get_original` non-negative and `N ≥ 0` tons
removed: when `N < D` only the derived entry decreases (snapping to a
deleted key within the 0.01 tolerance) and the original entry is untouched;
when `N = D` (and `O` is beyond tolerance) derived empties and original is
unchanged; when `N > D` the derived entry is emptied and original decreases
by exactly `N - D` when the remainder stays beyond tolerance, the original
entry is snapped to zero and deleted when `N - D` is within 0.01 of `O`, and
the removal raises when the shortfall `N - D - O` exceeds the tolerance. -/
theorem link_remove_derived_first (e : LinkEntry) (N : ℚ)
    (hN : 0 ≤ N) (hO : 0 ≤ e.get_original) (hD : 0 ≤ e.get_derived) :
    (N < e.get_derived →
      ∃ e2, LinkEntry.remove N e = .ok e2 ∧ e2.original = e.original ∧
        e2.get_derived =
          (if e.get_derived - N ≤ 1 / 100 then 0 else e.get_derived - N)) ∧
    (N = e.get_derived → 1 / 100 < e.get_original →
      ∃ e2, LinkEntry.remove N e = .ok e2 ∧
        e2.get_original = e.get_original ∧ e2.get_derived = 0) ∧
    (e.get_derived < N → 1 / 100 < e.get_original - (N - e.get_derived) →
      ∃ e2, LinkEntry.remove N e = .ok e2 ∧ e2.get_derived = 0 ∧
        e2.get_original = e.get_original - (N - e.get_derived)) ∧
    (e.get_derived < N → |N - e.get_derived - e.get_original| ≤ 1 / 100 →
      ∃ e2, LinkEntry.remove N e = .ok e2 ∧
        e2.get_original = 0 ∧ e2.get_derived = 0) ∧
    (e.get_derived < N → 1 / 100 < N - e.get_derived - e.get_original →
      LinkEntry.remove N e = .error .assertionError) := by
  refine ⟨?_, ?_, ?_, ?_, ?_⟩
  · -- N < D: only the derived entry changes
    intro hlt
    by_cases hsnap : e.get_derived - N ≤ 1 / 100
    · have habs : ¬(1 / 100 < |N - e.get_derived|) := by
        rw [abs_sub_comm, abs_of_nonneg (by linarith)]
        linarith
      refine ⟨{ e with derived := none }, ?_, rfl, ?_⟩
      · rw [LinkEntry.remove_eq, if_pos hlt, remove_ton_mode_eq,
          LinkEntry.get_derived_def, if_neg habs]
        rfl
      · rw [if_pos hsnap]
        rfl
    · have habs : 1 / 100 < |N - e.get_derived| := by
        rw [abs_sub_comm, abs_of_nonneg (by linarith)]
        linarith
      refine ⟨{ e with derived := some (e.get_derived - N) }, ?_, rfl, ?_⟩
      · rw [LinkEntry.remove_eq, if_pos hlt, remove_ton_mode_eq,
          LinkEntry.get_derived_def, if_pos habs, if_pos hlt]
        rfl
      · rw [if_neg hsnap]
        rfl
  · -- N = D beyond-tolerance original: derived empties, original unchanged
    intro hEq hOgt
    have hnlt : ¬(N < e.get_derived) := by rw [hEq]; exact lt_irrefl _
    by_cases hD0 : e.get_derived = 0
    · have hN0 : N = 0 := by rw [hEq, hD0]
      have habs : 1 / 100 < |N - e.get_original| := by
        rw [hN0, zero_sub, abs_neg, abs_of_nonneg hO]
        exact hOgt
      have hlt2 : N < e.get_original := by rw [hN0]; linarith
      refine ⟨{ e with original := some (e.get_original - N) }, ?_, ?_, ?_⟩
      · rw [LinkEntry.remove_eq, if_neg hnlt, if_pos hD0, remove_ton_mode_eq, LinkEntry.get_original_def,
          if_pos habs, if_pos hlt2]
        rfl
      · show e.get_original - N = e.get_original
        rw [hN0, sub_zero]
      · show entry_get e.derived = 0
        exact hD0
    · have hrem0 : N - e.get_derived = 0 := by rw [hEq, sub_self]
      have habs : 1 / 100 < |N - e.get_derived - e.get_original| := by
        rw [hrem0, zero_sub, abs_neg, abs_of_nonneg hO]
        exact hOgt
      have hlt2 : N - e.get_derived < e.get_original := by
        rw [hrem0]; linarith
      refine ⟨⟨some (e.get_original - (N - e.get_derived)), none⟩, ?_, ?_, rfl⟩
      · rw [LinkEntry.remove_eq, if_neg hnlt, if_neg hD0, remove_ton_mode_eq, LinkEntry.get_original_def,
          if_pos habs, if_pos hlt2]
        rfl
      · show e.get_original - (N - e.get_derived) = e.get_original
        rw [hrem0, sub_zero]
  · -- D < N with remainder beyond tolerance: spill exactly N - D into original
    intro hgt hbig
    have hnlt : ¬(N < e.get_derived) := not_lt.2 (le_of_lt hgt)
    by_cases hD0 : e.get_derived = 0
    · have habs : 1 / 100 < |N - e.get_original| := by
        rw [abs_sub_comm, abs_of_nonneg (by rw [hD0] at hbig; linarith)]
        rw [hD0] at hbig
        linarith
      have hlt2 : N < e.get_original := by rw [hD0] at hbig; linarith
      refine ⟨{ e with original := some (e.get_original - N) }, ?_, ?_, ?_⟩
      · rw [LinkEntry.remove_eq, if_neg hnlt, if_pos hD0, remove_ton_mode_eq, LinkEntry.get_original_def,
          if_pos habs, if_pos hlt2]
        rfl
      · show entry_get e.derived = 0
        exact hD0
      · show e.get_original - N = e.get_original - (N - e.get_derived)
        rw [hD0, sub_zero]
    · have habs : 1 / 100 < |N - e.get_derived - e.get_original| := by
        rw [abs_sub_comm, abs_of_nonneg (by linarith)]
        linarith
      have hlt2 : N - e.get_derived < e.get_original := by linarith
      refine ⟨⟨some (e.get_original - (N - e.get_derived)), none⟩, ?_, rfl, rfl⟩
      rw [LinkEntry.remove_eq, if_neg hnlt, if_neg hD0, remove_ton_mode_eq, LinkEntry.get_original_def,
        if_pos habs, if_pos hlt2]
      rfl
  · -- D < N with remainder within tolerance: both entries end deleted or zero
    intro hgt htol
    have hnlt : ¬(N < e.get_derived) := not_lt.2 (le_of_lt hgt)
    by_cases hD0 : e.get_derived = 0
    · have habs : ¬(1 / 100 < |N - e.get_original|) := by
        rw [hD0, sub_zero] at htol
        linarith [htol]
      refine ⟨{ e with original := none }, ?_, rfl, ?_⟩
      · rw [LinkEntry.remove_eq, if_neg hnlt, if_pos hD0, remove_ton_mode_eq, LinkEntry.get_original_def,
          if_neg habs]
        rfl
      · show entry_get e.derived = 0
        exact hD0
    · have habs : ¬(1 / 100 < |N - e.get_derived - e.get_original|) :=
        not_lt.2 htol
      refine ⟨⟨none, none⟩, ?_, rfl, rfl⟩
      rw [LinkEntry.remove_eq, if_neg hnlt, if_neg hD0, remove_ton_mode_eq, LinkEntry.get_original_def,
        if_neg habs]
      rfl
  · -- shortfall beyond tolerance: the removal raises
    intro hgt hshort
    have hnlt : ¬(N < e.get_derived) := not_lt.2 (le_of_lt hgt)
    by_cases hD0 : e.get_derived = 0
    · have habs : 1 / 100 < |N - e.get_original| := by
        rw [hD0, sub_zero] at hshort
        rw [abs_of_nonneg (by linarith)]
        linarith
      have hnlt2 : ¬(N < e.get_original) := by
        rw [hD0, sub_zero] at hshort
        linarith
      rw [LinkEntry.remove_eq, if_neg hnlt, if_pos hD0, remove_ton_mode_eq, LinkEntry.get_original_def,
        if_pos habs, if_neg hnlt2]
      rfl
    · have habs : 1 / 100 < |N - e.get_derived - e.get_original| := by
        rw [abs_of_nonneg (by linarith)]
        exact hshort
      have hnlt2 : ¬(N - e.get_derived < e.get_original) := by linarith
      rw [LinkEntry.remove_eq, if_neg hnlt, if_neg hD0, remove_ton_mode_eq, LinkEntry.get_original_def,
        if_pos habs, if_neg hnlt2]
      rfl

/-- Claim C6 witness: removing 3 tons from a slot holding 2 derived and 5
original tons empties derived and leaves 4 original tons. -/
theorem link_remove_derived_first_witness :
    ∃ e2, LinkEntry.remove 3 ⟨some 5, some 2⟩ = .ok e2 ∧ e2.get_derived = 0 ∧
      e2.get_original =
        LinkEntry.get_original ⟨some 5, some 2⟩ -
          (3 - LinkEntry.get_derived ⟨some 5, some 2⟩) := by
  have h := link_remove_derived_first ⟨some 5, some 2⟩ 3 (by norm_num)
    (by norm_num [LinkEntry.get_original, entry_get])
    (by norm_num [LinkEntry.get_derived, entry_get])
  exact h.2.2.1 (by norm_num [LinkEntry.get_derived, entry_get])
    (by norm_num [LinkEntry.get_original, LinkEntry.get_derived, entry_get])

/-- Claim C5: under the spec requirement that reverting a regroup restores
the exact pre-regroup state, one regrouping pass keeps each link's tentative
regroup exactly when the new total mobility cost is strictly lower (ties and
increases are reverted to the previous state), and the total mobility cost
after the pass is at most the pre-pass total mobility cost. -/
theorem calc_optimized_mobility_cost_monotone {S L : Type} (cost : S → ℚ)
    (idle_locs : S → L → ℕ) (rg rv : L → ℕ → S → S)
    (hinv : ∀ l n s, rv l n (rg l n s) = s) :
    (∀ s l, regroup_step cost idle_locs rg rv s l =
      if cost (rg l (idle_locs s l) s) < cost s then rg l (idle_locs s l) s
      else s) ∧
    (∀ links s,
      cost (calc_optimized_mobility_cost cost idle_locs rg rv links s) ≤ cost s) := by
  have hstep : ∀ s l, regroup_step cost idle_locs rg rv s l =
      if cost (rg l (idle_locs s l) s) < cost s then rg l (idle_locs s l) s
      else s := by
    intro s l
    show (if cost s ≤ cost (rg l (idle_locs s l) s)
          then rv l (idle_locs s l) (rg l (idle_locs s l) s)
          else rg l (idle_locs s l) s) = _
    by_cases hc : cost s ≤ cost (rg l (idle_locs s l) s)
    · rw [if_pos hc, hinv, if_neg (not_lt.2 hc)]
    · rw [if_neg hc, if_pos (lt_of_not_ge hc)]
  have hmono : ∀ s l, cost (regroup_step cost idle_locs rg rv s l) ≤ cost s := by
    intro s l
    rw [hstep]
    split_ifs with hlt
    · exact le_of_lt hlt
    · exact le_rfl
  refine ⟨hstep, ?_⟩
  intro links
  induction links with
  | nil => exact fun s => le_rfl
  | cons l ls ih =>
    intro s
    calc cost (calc_optimized_mobility_cost cost idle_locs rg rv (l :: ls) s)
        = cost (calc_optimized_mobility_cost cost idle_locs rg rv ls
            (regroup_step cost idle_locs rg rv s l)) := rfl
      _ ≤ cost (regroup_step cost idle_locs rg rv s l) := ih _
      _ ≤ cost s := hmono s l

/-- Claim C5 witness: a concrete instance where reverting adds back what
regrouping subtracted. -/
theorem calc_optimized_mobility_cost_monotone_witness :
    id (calc_optimized_mobility_cost (id : ℚ → ℚ) (fun _ _ => 1)
      (fun _ n s => s - (n : ℚ)) (fun _ n s => s + (n : ℚ)) [0, 1, 2] (5 : ℚ)) ≤
      id 5 :=
  (calc_optimized_mobility_cost_monotone (id : ℚ → ℚ) (fun _ _ => 1)
    (fun _ n s => s - (n : ℚ)) (fun _ n s => s + (n : ℚ))
    (fun l n s => by show s - (n : ℚ) + (n : ℚ) = s; ring)).2 [0, 1, 2] 5

/-- Claim C10: `LinkTons.clean_insignificant_ton_values` leaves the nested
tons mapping exactly unchanged for every ledger state and significance
threshold: the loop body only rebinds its local variable. -/
theorem clean_insignificant_preserves (t : LinkTons) (significance : ℚ) :
    LinkTons.clean_insignificant_ton_values t significance = t := by
  unfold LinkTons.clean_insignificant_ton_values
  generalize t.iter_values = l
  induction l with
  | nil => rfl
  | cons v vs ih =>
    simp only [List.foldl_cons, ite_self] at ih ⊢
    exact ih

end Freight
